import Mathlib

/-!
Verification of the invocation adapter in src/agentcore/main.py.

The adapter is the async entrypoint

    async def invoke(payload):
        user_prompt = payload.get("prompt", "No prompt found in input, ...")
        agent_stream = agent.stream_async(user_prompt)
        async for event in agent_stream:
            if "event" in event:
                yield event

We embed the Python values the adapter touches, the dictionary get
method, the Python membership operator used by the filter, and the
backend stream as an explicit state: a list of pending stream results
(one consumed per call to stream_async) together with a log of the
prompt arguments passed to stream_async. The adapter itself becomes a
pure function from a backend state and a payload to the produced result
(yielded events plus an optional propagated error), the backend state
after the call, and the payload object after the call (the get method
of a Python dict reads and never writes, so the embedding threads the
payload through each step that touches it).
-/

namespace AgentCore

/-- Python values relevant to this program: strings, integers, None and
string-keyed dictionaries (payloads and response events). -/
inductive PyVal where
  | str : String → PyVal
  | int : Int → PyVal
  | noneV : PyVal
  | dict : List (String × PyVal) → PyVal

/-- Errors the embedded program can surface: an error raised because a
value of the wrong type was used at an operation (Python TypeError or
AttributeError), or an error raised by the backend stream, carrying the
backend message unchanged. -/
inductive PyErr where
  | typeError : String → PyErr
  | backendError : String → PyErr

/-- Lookup in a string-keyed dictionary, first matching key. -/
def dictGet : List (String × PyVal) → String → Option PyVal
  | [], _ => Option.none
  | (k, v) :: rest, key => if k = key then some v else dictGet rest key

/-- Whether the first character list is an initial segment of the second. -/
def listStartsWith : List Char → List Char → Bool
  | [], _ => true
  | _ :: _, [] => false
  | n :: ns, h :: hs => n == h && listStartsWith ns hs

/-- Whether the first character list occurs contiguously inside the second. -/
def listContainsSub (needle : List Char) : List Char → Bool
  | [] => listStartsWith needle []
  | h :: hs => listStartsWith needle (h :: hs) || listContainsSub needle hs

/-- Substring test on strings, the semantics of the Python membership
operator on a string. -/
def strContains (needle hay : String) : Bool :=
  listContainsSub needle.toList hay.toList

/-- The Python membership operator applied as in the source line
`if "event" in event`: key membership on a dictionary, substring test on
a string, and a TypeError on values supporting no containment test. -/
def pyContains (needle : String) : PyVal → Except PyErr Bool
  | .dict kvs => .ok (kvs.any (fun kv => kv.1 == needle))
  | .str s => .ok (strContains needle s)
  | .int _ => .error (.typeError "argument of type int is not iterable")
  | .noneV => .error (.typeError "argument of type NoneType is not iterable")

/-- Whether a value is a dictionary. -/
def isDict : PyVal → Bool
  | .dict _ => true
  | _ => false

/-- Whether a value is a string. -/
def isStr : PyVal → Bool
  | .str _ => true
  | _ => false

/-- Whether a dictionary event exposes the key event; on any other
value the result is false. -/
def hasEventKey : PyVal → Bool
  | .dict kvs => kvs.any (fun kv => kv.1 == "event")
  | _ => false

/-- One stream returned by agent.stream_async: the units it produces in
order, then optionally the message of an error it raises when the next
unit is requested after those (errMsg = none means clean exhaustion).
An error raised before any unit is the case events = []. -/
structure StreamResult where
  events : List PyVal
  errMsg : Option String

/-- The external backend as seen by the adapter: the streams its next
calls will return, in order, and the log of prompt arguments passed to
stream_async so far. -/
structure BackendState where
  pending : List StreamResult
  calls : List PyVal

/-- The call agent.stream_async(prompt): consumes the next pending
stream (an empty clean stream if none is listed) and records the prompt
argument, unchanged, in the call log. -/
def streamAsync (st : BackendState) (prompt : PyVal) : StreamResult × BackendState :=
  match st.pending with
  | [] => (⟨[], Option.none⟩, ⟨[], st.calls ++ [prompt]⟩)
  | s :: rest => (s, ⟨rest, st.calls ++ [prompt]⟩)

/-- What one invocation produces for its caller: the events yielded, in
order, and the error that terminated iteration, if any. -/
structure InvokeResult where
  output : List PyVal
  err : Option PyErr

/-- The body of `async for event in agent_stream: if "event" in event:
yield event`, applied to the units the stream produces: each unit is
tested with the membership operator; a passing unit is yielded, a
failing unit is skipped, and a unit on which the test raises stops
iteration there with that error (units already yielded stay yielded). -/
def filterLoop : List PyVal → List PyVal × Option PyErr
  | [] => ([], Option.none)
  | e :: rest =>
    match pyContains "event" e with
    | .error er => ([], some er)
    | .ok true =>
      let r := filterLoop rest
      (e :: r.1, r.2)
    | .ok false => filterLoop rest

/-- Consuming one whole stream: run the filtering loop over its units;
if the loop itself raised no error and the stream ends in an error, that
backend error propagates unchanged after the yielded events. -/
def runStream (s : StreamResult) : InvokeResult :=
  match filterLoop s.events with
  | (out, some er) => ⟨out, some er⟩
  | (out, Option.none) => ⟨out, s.errMsg.map PyErr.backendError⟩

/-- The fallback prompt string from line 19 of src/agentcore/main.py. -/
def fallbackPrompt : String :=
  "No prompt found in input, please guide customer to create a json payload with prompt key"

/-- The fallback prompt as a Python value. -/
def fallbackVal : PyVal := .str fallbackPrompt

/-- The expression payload.get("prompt", fallback): on a dictionary it
returns the stored value when the key is present (whatever that value
is) and the default when absent, reading and never writing; on any
other value the attribute access fails with an error caused by the
type of the payload, before anything else happens. -/
def payloadGet (payload : PyVal) (key : String) (dflt : PyVal) : Except PyErr PyVal :=
  match payload with
  | .dict kvs => .ok ((dictGet kvs key).getD dflt)
  | _ => .error (.typeError "payload object has no attribute get")

/-- The entrypoint invoke(payload) of src/agentcore/main.py, lines
16 to 23, embedded over an explicit backend state: resolve the prompt
with payload.get, open one stream via stream_async, and yield the units
passing the membership test in order. Returns the result for the
caller, the backend state after the call, and the payload object after
the call. -/
def invoke (st : BackendState) (payload : PyVal) : InvokeResult × BackendState × PyVal :=
  match payloadGet payload "prompt" fallbackVal with
  | .error er => (⟨[], some er⟩, st, payload)
  | .ok user_prompt =>
    let sr := streamAsync st user_prompt
    (runStream sr.1, sr.2, payload)

/-! Helper lemmas shared by the claim theorems. -/

/-- On a dictionary unit the membership test never raises and returns
exactly the key test. -/
theorem pyContains_of_isDict (e : PyVal) (h : isDict e = true) :
    pyContains "event" e = .ok (hasEventKey e) := by
  cases e <;> simp_all [isDict, pyContains, hasEventKey]

/-- When every unit of the stream is a dictionary, the filtering loop
raises nothing and keeps exactly the units exposing the key event, in
order. -/
theorem filterLoop_of_dicts (evs : List PyVal) (h : ∀ e ∈ evs, isDict e = true) :
    filterLoop evs = (evs.filter hasEventKey, Option.none) := by
  induction evs with
  | nil => rfl
  | cons e rest ih =>
    have he : isDict e = true := h e (List.mem_cons_self e rest)
    have hrest : ∀ x ∈ rest, isDict x = true := fun x hx => h x (List.mem_cons_of_mem e hx)
    rw [filterLoop, pyContains_of_isDict e he]
    by_cases hk : hasEventKey e
    · simp [hk, ih hrest, List.filter]
    · simp only [Bool.not_eq_true] at hk
      simp [hk, ih hrest, List.filter]

/-- When every unit of the stream is a dictionary, consuming the stream
yields the key-filtered units and then propagates the backend error of
the stream, if any, unchanged. -/
theorem runStream_of_dicts (s : StreamResult) (h : ∀ e ∈ s.events, isDict e = true) :
    runStream s = ⟨s.events.filter hasEventKey, s.errMsg.map PyErr.backendError⟩ := by
  rw [runStream, filterLoop_of_dicts s.events h]

/-- On a dictionary payload the invocation resolves the prompt with
dictGet and the fallback default, opens one stream and consumes it. -/
theorem invoke_dict (st : BackendState) (kvs : List (String × PyVal)) :
    invoke st (.dict kvs) =
      (runStream (streamAsync st ((dictGet kvs "prompt").getD fallbackVal)).1,
       (streamAsync st ((dictGet kvs "prompt").getD fallbackVal)).2, .dict kvs) := by
  rfl

/-- With at least one pending stream, stream_async hands out the first
one and appends the prompt argument to the call log. -/
theorem streamAsync_cons (s : StreamResult) (rest : List StreamResult)
    (cs : List PyVal) (v : PyVal) :
    streamAsync ⟨s :: rest, cs⟩ v = (s, ⟨rest, cs ++ [v]⟩) := by
  rfl

/-! The claims. -/

/-- C1: for every payload containing a non-empty string under the key
prompt, invoke calls the streaming backend exactly once with exactly
that string (the call log is extended by that one prompt and one
pending stream is consumed), and the output sequence equals the
subsequence of backend events exposing the key event, in receipt order,
with no transformation; events lacking the key are absent. Stated for
streams whose units are dictionaries, the only units of which exposing
or lacking a key is asserted. -/
theorem C1_forwards_prompt_and_filters (kvs : List (String × PyVal)) (p : String)
    (s : StreamResult) (rest : List StreamResult) (cs : List PyVal)
    (hp : dictGet kvs "prompt" = some (.str p)) (hne : p ≠ "")
    (hev : ∀ e ∈ s.events, isDict e = true) :
    invoke ⟨s :: rest, cs⟩ (.dict kvs) =
      (⟨s.events.filter hasEventKey, s.errMsg.map PyErr.backendError⟩,
       ⟨rest, cs ++ [.str p]⟩, .dict kvs) := by
  rw [invoke_dict, hp, Option.getD_some, streamAsync_cons, runStream_of_dicts s hev]

/-- Witness for C1 at the payload of example scenario 1 of the spec and
a three-event stream: the middle event lacks the key event and is
dropped, the others are forwarded in order, and the backend was called
once with the string 2+2?. -/
theorem C1_witness :
    invoke ⟨[⟨[.dict [("event", .int 1)], .dict [("other", .noneV)],
               .dict [("event", .str "done")]], Option.none⟩], []⟩
        (.dict [("prompt", .str "2+2?")]) =
      (⟨[.dict [("event", .int 1)], .dict [("event", .str "done")]], Option.none⟩,
       ⟨[], [.str "2+2?"]⟩, .dict [("prompt", .str "2+2?")]) :=
  C1_forwards_prompt_and_filters [("prompt", .str "2+2?")] "2+2?" _ [] []
    rfl (by decide) (by decide)

/-- Whatever the pending streams, stream_async appends its prompt
argument, unchanged, to the call log. -/
theorem streamAsync_calls (st : BackendState) (v : PyVal) :
    (streamAsync st v).2.calls = st.calls ++ [v] := by
  rcases st with ⟨pending, cs⟩
  cases pending <;> rfl

/-- C2: for every mapping payload with no prompt key, invoke substitutes
the fixed fallback string, calls the backend with it (the call log is
extended by exactly the fallback string) and proceeds as a normal
invocation: the result and backend state are those of invoking with a
payload that carries the fallback string explicitly, with no error from
the prompt-resolution step. -/
theorem C2_fallback_on_missing_prompt (kvs : List (String × PyVal))
    (st : BackendState) (hp : dictGet kvs "prompt" = Option.none) :
    (invoke st (.dict kvs)).1 = (invoke st (.dict [("prompt", fallbackVal)])).1 ∧
    (invoke st (.dict kvs)).2.1 = (invoke st (.dict [("prompt", fallbackVal)])).2.1 ∧
    (invoke st (.dict kvs)).2.1.calls = st.calls ++ [fallbackVal] := by
  rw [invoke_dict, invoke_dict, hp]
  exact ⟨rfl, rfl, streamAsync_calls st fallbackVal⟩

/-- Witness for C2 at the payload with a single unrelated key: the
invocation matches the explicit-fallback invocation and the backend is
called with the fallback string. -/
theorem C2_witness :
    (invoke ⟨[⟨[.dict [("event", .int 7)]], Option.none⟩], []⟩ (.dict [("extra", .int 1)])).1
        = (invoke ⟨[⟨[.dict [("event", .int 7)]], Option.none⟩], []⟩
            (.dict [("prompt", fallbackVal)])).1 ∧
    (invoke ⟨[⟨[.dict [("event", .int 7)]], Option.none⟩], []⟩ (.dict [("extra", .int 1)])).2.1
        = (invoke ⟨[⟨[.dict [("event", .int 7)]], Option.none⟩], []⟩
            (.dict [("prompt", fallbackVal)])).2.1 ∧
    (invoke ⟨[⟨[.dict [("event", .int 7)]], Option.none⟩], []⟩
        (.dict [("extra", .int 1)])).2.1.calls = [] ++ [fallbackVal] :=
  C2_fallback_on_missing_prompt [("extra", .int 1)] _ rfl

/-- C3: on any mapping payload, an error raised by the underlying
stream propagates to the caller with its message unchanged, with no
catching or translation (stated for streams whose yielded units are
dictionaries, so the loop itself raises nothing); in particular when
the stream raises before producing any event the output is empty. -/
theorem C3_backend_error_propagates (kvs : List (String × PyVal))
    (evs : List PyVal) (emsg : String) (rest : List StreamResult) (cs : List PyVal)
    (hev : ∀ e ∈ evs, isDict e = true) :
    (invoke ⟨⟨evs, some emsg⟩ :: rest, cs⟩ (.dict kvs)).1.err
        = some (.backendError emsg) ∧
    (invoke ⟨⟨[], some emsg⟩ :: rest, cs⟩ (.dict kvs)).1.output = [] := by
  constructor
  · rw [invoke_dict, streamAsync_cons]
    rw [show (⟨⟨evs, some emsg⟩, ⟨rest, cs ++ [(dictGet kvs "prompt").getD fallbackVal]⟩⟩ :
          StreamResult × BackendState).1 = ⟨evs, some emsg⟩ from rfl]
    rw [runStream_of_dicts ⟨evs, some emsg⟩ hev]
    rfl
  · rw [invoke_dict, streamAsync_cons]
    rfl

/-- Witness for C3 at example scenario 4 of the spec: the backend
raises an authentication error before yielding anything; the output is
empty and the error message surfaces unchanged. -/
theorem C3_witness :
    (invoke ⟨[⟨[], some "authentication failed"⟩], []⟩
        (.dict [("prompt", .str "q")])).1.err
        = some (.backendError "authentication failed") ∧
    (invoke ⟨[⟨[], some "authentication failed"⟩], []⟩
        (.dict [("prompt", .str "q")])).1.output = [] := by
  have h := C3_backend_error_propagates [("prompt", .str "q")] []
    "authentication failed" [] [] (by decide)
  exact h

/-- C4: on every payload that is not a mapping, invoke fails at the
prompt-access step with the error caused by the type of the payload,
and the backend state is untouched: no stream is consumed and the call
log is unchanged, so no backend call was made. -/
theorem C4_nonmapping_payload_fails (v : PyVal) (st : BackendState)
    (hv : isDict v = false) :
    invoke st v = (⟨[], some (.typeError "payload object has no attribute get")⟩, st, v) := by
  cases v <;> simp_all [isDict, invoke, payloadGet]

/-- Witness for C4 at the integer payload 3 and a backend holding one
pending stream: the invocation fails at once and the backend state is
untouched. -/
theorem C4_witness :
    invoke ⟨[⟨[.dict [("event", .int 1)]], Option.none⟩], []⟩ (.int 3)
      = (⟨[], some (.typeError "payload object has no attribute get")⟩,
         ⟨[⟨[.dict [("event", .int 1)]], Option.none⟩], []⟩, .int 3) :=
  C4_nonmapping_payload_fails (.int 3) _ (by decide)

/-- C5: on every payload whose prompt key maps to a non-string value,
invoke passes that value to the backend unchanged (the call log records
exactly that value, with no coercion) and the result is exactly the
consumption of the stream the backend returned for it. -/
theorem C5_nonstring_prompt_uncoerced (kvs : List (String × PyVal)) (v : PyVal)
    (s : StreamResult) (rest : List StreamResult) (cs : List PyVal)
    (hp : dictGet kvs "prompt" = some v) (hv : isStr v = false) :
    invoke ⟨s :: rest, cs⟩ (.dict kvs) = (runStream s, ⟨rest, cs ++ [v]⟩, .dict kvs) := by
  rw [invoke_dict, hp, Option.getD_some, streamAsync_cons]

/-- Witness for C5 at a prompt mapped to the integer 42: the backend is
called with the integer itself. -/
theorem C5_witness :
    invoke ⟨[⟨[.dict [("event", .noneV)]], Option.none⟩], []⟩
        (.dict [("prompt", .int 42)])
      = (runStream ⟨[.dict [("event", .noneV)]], Option.none⟩,
         ⟨[], [] ++ [.int 42]⟩, .dict [("prompt", .int 42)]) :=
  C5_nonstring_prompt_uncoerced [("prompt", .int 42)] (.int 42) _ [] [] rfl (by decide)

/-- C6: two mapping payloads that resolve the prompt key identically
(both present with equal values, or both absent) produce identical
behaviour: the same result for the caller and the same backend state,
whatever their other keys. -/
theorem C6_other_keys_ignored (kvs1 kvs2 : List (String × PyVal)) (st : BackendState)
    (hp : dictGet kvs1 "prompt" = dictGet kvs2 "prompt") :
    (invoke st (.dict kvs1)).1 = (invoke st (.dict kvs2)).1 ∧
    (invoke st (.dict kvs1)).2.1 = (invoke st (.dict kvs2)).2.1 := by
  rw [invoke_dict, invoke_dict, hp]
  exact ⟨rfl, rfl⟩

/-- Witness for C6 at example scenario 3 of the spec: the payload with
an extra key behaves identically to the payload with the prompt alone. -/
theorem C6_witness :
    (invoke ⟨[⟨[.dict [("event", .int 1)]], Option.none⟩], []⟩
        (.dict [("prompt", .str "x"), ("extra", .int 1)])).1
      = (invoke ⟨[⟨[.dict [("event", .int 1)]], Option.none⟩], []⟩
          (.dict [("prompt", .str "x")])).1 ∧
    (invoke ⟨[⟨[.dict [("event", .int 1)]], Option.none⟩], []⟩
        (.dict [("prompt", .str "x"), ("extra", .int 1)])).2.1
      = (invoke ⟨[⟨[.dict [("event", .int 1)]], Option.none⟩], []⟩
          (.dict [("prompt", .str "x")])).2.1 :=
  C6_other_keys_ignored [("prompt", .str "x"), ("extra", .int 1)]
    [("prompt", .str "x")] _ rfl

/-- C7: invoke never mutates the request payload: the payload object
after the invocation, whether it completed or failed, is the payload as
passed in. In the embedding every step touching the payload is a read
(dict get reads and never writes), and the payload component of the
result is the object after execution. -/
theorem C7_payload_not_mutated (st : BackendState) (p : PyVal) :
    (invoke st p).2.2 = p := by
  cases p <;> rfl

/-- C8: invoking twice with the same payload performs two independent
backend calls: the call log gains two entries and two pending streams
are consumed, and the second invocation result is exactly the
consumption of the second stream, unaffected by the first stream, so no
caching or memoization of the first response occurs. -/
theorem C8_two_calls_no_caching (kvs : List (String × PyVal)) (v : PyVal)
    (s1 s2 : StreamResult) (rest : List StreamResult) (cs : List PyVal)
    (hp : dictGet kvs "prompt" = some v) :
    (invoke (invoke ⟨s1 :: s2 :: rest, cs⟩ (.dict kvs)).2.1 (.dict kvs)).2.1.calls
        = cs ++ [v, v] ∧
    (invoke (invoke ⟨s1 :: s2 :: rest, cs⟩ (.dict kvs)).2.1 (.dict kvs)).1
        = runStream s2 := by
  rw [invoke_dict ⟨s1 :: s2 :: rest, cs⟩ kvs, hp, Option.getD_some, streamAsync_cons]
  rw [show ((runStream s1, ⟨s2 :: rest, cs ++ [v]⟩, PyVal.dict kvs) :
        InvokeResult × BackendState × PyVal).2.1 = ⟨s2 :: rest, cs ++ [v]⟩ from rfl]
  rw [invoke_dict ⟨s2 :: rest, cs ++ [v]⟩ kvs, hp, Option.getD_some, streamAsync_cons]
  refine ⟨?_, rfl⟩
  simp

/-- Witness for C8: two invocations with the same payload consume two
different streams; the second result comes from the second stream. -/
theorem C8_witness :
    (invoke (invoke ⟨[⟨[.dict [("event", .int 1)]], Option.none⟩,
                      ⟨[.dict [("event", .int 2)]], Option.none⟩], []⟩
        (.dict [("prompt", .str "x")])).2.1 (.dict [("prompt", .str "x")])).2.1.calls
        = [] ++ [.str "x", .str "x"] ∧
    (invoke (invoke ⟨[⟨[.dict [("event", .int 1)]], Option.none⟩,
                      ⟨[.dict [("event", .int 2)]], Option.none⟩], []⟩
        (.dict [("prompt", .str "x")])).2.1 (.dict [("prompt", .str "x")])).1
        = runStream ⟨[.dict [("event", .int 2)]], Option.none⟩ :=
  C8_two_calls_no_caching [("prompt", .str "x")] (.str "x") _ _ [] [] rfl

/-- C9: the fallback is substituted exactly when the prompt key is
absent: a prompt present with value None or with the empty string is
passed to the backend unchanged (the call log records None or the empty
string, not the fallback), while an absent key makes the backend
receive the fallback string. -/
theorem C9_fallback_iff_prompt_absent (kvs : List (String × PyVal))
    (s : StreamResult) (rest : List StreamResult) (cs : List PyVal) :
    (dictGet kvs "prompt" = some PyVal.noneV →
      invoke ⟨s :: rest, cs⟩ (.dict kvs)
        = (runStream s, ⟨rest, cs ++ [PyVal.noneV]⟩, .dict kvs)) ∧
    (dictGet kvs "prompt" = some (.str "") →
      invoke ⟨s :: rest, cs⟩ (.dict kvs)
        = (runStream s, ⟨rest, cs ++ [.str ""]⟩, .dict kvs)) ∧
    (dictGet kvs "prompt" = Option.none →
      invoke ⟨s :: rest, cs⟩ (.dict kvs)
        = (runStream s, ⟨rest, cs ++ [fallbackVal]⟩, .dict kvs)) := by
  refine ⟨fun h => ?_, fun h => ?_, fun h => ?_⟩ <;> rw [invoke_dict, h] <;> rfl

/-- Witness for C9 across its three cases: a prompt stored as None, a
prompt stored as the empty string, and an absent prompt key. -/
theorem C9_witness :
    invoke ⟨[⟨[], Option.none⟩], []⟩ (.dict [("prompt", PyVal.noneV)])
      = (runStream ⟨[], Option.none⟩, ⟨[], [] ++ [PyVal.noneV]⟩,
         .dict [("prompt", PyVal.noneV)]) ∧
    invoke ⟨[⟨[], Option.none⟩], []⟩ (.dict [("prompt", .str "")])
      = (runStream ⟨[], Option.none⟩, ⟨[], [] ++ [.str ""]⟩,
         .dict [("prompt", .str "")]) ∧
    invoke ⟨[⟨[], Option.none⟩], []⟩ (.dict [])
      = (runStream ⟨[], Option.none⟩, ⟨[], [] ++ [fallbackVal]⟩, .dict []) :=
  ⟨(C9_fallback_iff_prompt_absent [("prompt", PyVal.noneV)] _ [] []).1 rfl,
   (C9_fallback_iff_prompt_absent [("prompt", .str "")] _ [] []).2.1 rfl,
   (C9_fallback_iff_prompt_absent [] _ [] []).2.2 rfl⟩

/-- C10: the filter is the generic membership test, not a mapping-key
check: a string unit produced by the stream is yielded exactly when it
contains event as a substring and iteration ends cleanly, while an
integer unit makes invoke raise a type error at that point, yielding
nothing from it or from any later unit rather than skipping it. -/
theorem C10_generic_containment_test (p : String) (n : Int)
    (kvs : List (String × PyVal)) (post : List PyVal)
    (rest : List StreamResult) (cs : List PyVal) :
    (invoke ⟨⟨[.str p], Option.none⟩ :: rest, cs⟩ (.dict kvs)).1
        = ⟨if strContains "event" p then [.str p] else [], Option.none⟩ ∧
    (invoke ⟨⟨.int n :: post, Option.none⟩ :: rest, cs⟩ (.dict kvs)).1
        = ⟨[], some (.typeError "argument of type int is not iterable")⟩ := by
  constructor
  · rw [invoke_dict, streamAsync_cons]
    by_cases h : strContains "event" p <;>
      simp [runStream, filterLoop, pyContains, h]
  · rw [invoke_dict, streamAsync_cons]
    rfl

end AgentCore
